import Mathlib

/-!
Shallow embedding of the forgepoint CLI linter core
(src/tools/cli/src/{document,parser,validator,schema,linter}.rs).

Modelling conventions:
* Rust `String` is Lean `String`; a document's raw `content` is modelled as
  its list of lines (every consumer in the source immediately calls
  `content.lines()`).
* Rust `HashMap` is modelled as an association list with insert-overwrite
  semantics; iteration order of hash maps is modelled as list order.
* Rust `Result` is `Except`; the `jsonschema` crate's compiled validator is
  an injected function field (an external capability the core does not own).
* The `str::trim` / regex primitives used by the source are re-implemented
  on `List Char` with the exact semantics the source relies on.
-/

namespace Forgepoint

/-- Apostrophe character as a string (used inside error messages). -/
def apos : String := String.mk [Char.ofNat 39]

/-- Wrap a string in single quotes, as Rust format strings in the source do. -/
def quoteSq (s : String) : String := apos ++ s ++ apos

/-- Model of Rust `str::trim` on a character list: drop leading and trailing
whitespace. -/
def trimChars (cs : List Char) : List Char :=
  (((cs.dropWhile Char.isWhitespace).reverse).dropWhile Char.isWhitespace).reverse

/-- Model of Rust `str::trim().to_string()`. -/
def strTrim (s : String) : String := String.mk (trimChars s.data)

/-- Rust `str::starts_with(c)`. -/
def startsWithChar (s : String) (c : Char) : Bool := s.data.head? == some c

/-- Rust `str::ends_with(c)`. -/
def endsWithChar (s : String) (c : Char) : Bool := s.data.getLast? == some c

/-- Does `needle` occur at the head of `hay`? -/
def needleAt : List Char → List Char → Bool
  | [], _ => true
  | _ :: _, [] => false
  | n :: ns, h :: hs => n == h && needleAt ns hs

/-- Does `needle` occur anywhere in `hay`?  Model of Rust `str::contains`. -/
def hasSubList (needle : List Char) : List Char → Bool
  | [] => needleAt needle []
  | c :: t => needleAt needle (c :: t) || hasSubList needle t

/-- Rust `str::contains(&str)`. -/
def strContains (hay needle : String) : Bool := hasSubList needle.data hay.data

/-- Character class `[a-z0-9-]` of the id regex. -/
def isIdChar (c : Char) : Bool :=
  c == '-' || (('a' ≤ c) && (c ≤ 'z')) || (('0' ≤ c) && (c ≤ '9'))

/-- Character class `[a-z-]` of the cross-reference kind regex. -/
def isKindChar (c : Char) : Bool := c == '-' || (('a' ≤ c) && (c ≤ 'z'))

/-- Full-string match of `^[a-z0-9-]+$` (Rust `Regex::is_match` in
`validate_id_format`). -/
def idRegexMatches (s : String) : Bool := !s.data.isEmpty && s.data.all isIdChar

/-- Rust `str::contains("--")`. -/
def hasConsecHyphens : List Char → Bool
  | '-' :: '-' :: _ => true
  | _ :: rest => hasConsecHyphens rest
  | [] => false

/-- The error enum of src/tools/cli/src/error.rs (only the variants the core
uses). -/
inductive ForgepointErrorM where
  | Io (msg : String)
  | Json (msg : String)
  | Schema (msg : String)
  | Parsing (msg : String)
  | FileNotFound (msg : String)
  | InvalidDocumentType (msg : String)
  | InvalidIdFormat (msg : String)
deriving DecidableEq, Repr

/-- Display implementation of the error enum (the `#[error(...)]` format
strings of error.rs). -/
def errToString : ForgepointErrorM → String
  | .Io m => "IO error: " ++ m
  | .Json m => "JSON error: " ++ m
  | .Schema m => "Schema validation error: " ++ m
  | .Parsing m => "Document parsing error: " ++ m
  | .FileNotFound m => "File not found: " ++ m
  | .InvalidDocumentType m => "Invalid document type: " ++ m
  | .InvalidIdFormat m => "Invalid ID format: " ++ m

instance {ε : Type u} {α : Type v} [DecidableEq ε] [DecidableEq α] :
    DecidableEq (Except ε α)
  | .ok a, .ok b =>
    decidable_of_iff (a = b) ⟨congrArg Except.ok, fun h => by injection h⟩
  | .error a, .error b =>
    decidable_of_iff (a = b) ⟨congrArg Except.error, fun h => by injection h⟩
  | .ok _, .error _ => isFalse (fun h => by injection h)
  | .error _, .ok _ => isFalse (fun h => by injection h)

/-- Association-list lookup, modelling `HashMap::get`. -/
def alistLookup (k : String) : List (String × String) → Option String
  | [] => none
  | (k', v) :: rest => if k' == k then some v else alistLookup k rest

/-- Association-list insert with overwrite, modelling `HashMap::insert`. -/
def alistInsert (k v : String) : List (String × String) → List (String × String)
  | [] => [(k, v)]
  | (k', v') :: rest =>
    if k' == k then (k, v) :: rest else (k', v') :: alistInsert k v rest

/-- `Section` of document.rs. -/
structure Section where
  level : Nat
  title : String
  content : String
  line_number : Option Nat
deriving DecidableEq, Repr

/-- `CrossReference` of document.rs. -/
structure CrossReference where
  ref_type : String
  id : String
  line_number : Option Nat
  external : Bool
  version : Option String
  repository : Option String
deriving DecidableEq, Repr

/-- `ForgepointDocument` of document.rs.  `content` is the list of lines of
the raw content (every consumer calls `content.lines()`). -/
structure ForgepointDocument where
  file_path : String
  title : Option String
  attributes : List (String × String)
  content : List String
  sections : List Section
deriving DecidableEq, Repr

/-- `ForgepointDocument::has_forgepoint_structure`. -/
def has_forgepoint_structure (doc : ForgepointDocument) : Bool :=
  (["forgepoint-type", "id", "schema-version"] : List String).all
    (fun attr => (alistLookup attr doc.attributes).isSome)

/-- `ForgepointDocument::document_type`. -/
def document_type (doc : ForgepointDocument) : Option String :=
  alistLookup ("forgepoint-type") doc.attributes

/-- `ForgepointDocument::document_id`. -/
def document_id (doc : ForgepointDocument) : Option String :=
  alistLookup ("id") doc.attributes

/-- `ForgepointDocument::validate_id_format`: the id must match
`^[a-z0-9-]+$`, must not start or end with a hyphen, and must not contain
consecutive hyphens, checked in that order. -/
def validate_id_format (doc : ForgepointDocument) : Except ForgepointErrorM Unit :=
  match document_id doc with
  | none => .error (.InvalidIdFormat "Missing document ID")
  | some id =>
    if !idRegexMatches id then
      .error (.InvalidIdFormat
        ("ID " ++ quoteSq id ++ " must contain only lowercase letters, numbers, and hyphens"))
    else if startsWithChar id '-' || endsWithChar id '-' then
      .error (.InvalidIdFormat "ID cannot start or end with a hyphen")
    else if hasConsecHyphens id.data then
      .error (.InvalidIdFormat "ID cannot contain consecutive hyphens")
    else
      .ok ()

/-- `ForgepointDocument::level_2_sections`. -/
def level_2_sections (doc : ForgepointDocument) : List Section :=
  doc.sections.filter (fun s => s.level == 2)

/-- Loop body of `ForgepointDocument::abstract_content`: scan the lines with
an `in_abstract` flag, collecting non-empty lines of the first `[abstract]`
block until a heading line, a bracket-delimited line, or a blank line after
at least one collected line. -/
def abstractLoop : Bool → List String → List String → List String
  | _, acc, [] => acc
  | inAbs, acc, line :: rest =>
    if strTrim line == "[abstract]" then abstractLoop true acc rest
    else if inAbs then
      if startsWithChar line '=' || (startsWithChar line '[' && endsWithChar line ']') then acc
      else if strTrim line == "" && !acc.isEmpty then acc
      else if !(strTrim line == "") then abstractLoop true (acc ++ [line]) rest
      else abstractLoop true acc rest
    else abstractLoop false acc rest

/-- Rust `Vec::join("\n")`. -/
def joinNl : List String → String
  | [] => ""
  | [l] => l
  | l :: rest => l ++ "\n" ++ joinNl rest

/-- `ForgepointDocument::abstract_content`. -/
def abstract_content (doc : ForgepointDocument) : Option String :=
  let ls := abstractLoop false [] doc.content
  if ls.isEmpty then none else some (strTrim (joinNl ls))

/-- Skip the optional trailing `(?:\[[^\]]*\])?` group of the reference
regexes: if a `[` follows and a matching `]` exists, consume through the
first `]`; otherwise the optional group is not taken. -/
def skipBracket : List Char → List Char
  | '[' :: rest =>
    match rest.dropWhile (fun c => c != ']') with
    | ']' :: rest' => rest'
    | _ => '[' :: rest
  | cs => cs

/-- Attempt the internal reference regex
`xref:([a-z-]+):([a-z0-9-]+)(?:\[[^\]]*\])?` at the head of the input;
return the two captures and the remainder after the match. -/
def tryInternalAt (cs : List Char) : Option (String × String × List Char) :=
  if needleAt ['x', 'r', 'e', 'f', ':'] cs then
    let rest := cs.drop 5
    let r1 := rest.takeWhile isKindChar
    match r1.isEmpty, rest.dropWhile isKindChar with
    | false, ':' :: rest2 =>
      let r2 := rest2.takeWhile isIdChar
      if r2.isEmpty then none
      else some (String.mk r1, String.mk r2, skipBracket (rest2.dropWhile isIdChar))
    | _, _ => none
  else none

/-- Attempt the external reference regex
`xref:([^#]+)#([a-z-]+):([a-z0-9-]+)(?:@([^[\]]+))?(?:\[[^\]]*\])?` at the
head of the input; return (repository, kind, id, version) and the remainder. -/
def tryExternalAt (cs : List Char) :
    Option (String × String × String × Option String × List Char) :=
  if needleAt ['x', 'r', 'e', 'f', ':'] cs then
    let rest := cs.drop 5
    let repo := rest.takeWhile (fun c => c != '#')
    match repo.isEmpty, rest.dropWhile (fun c => c != '#') with
    | false, '#' :: rest2 =>
      let r1 := rest2.takeWhile isKindChar
      match r1.isEmpty, rest2.dropWhile isKindChar with
      | false, ':' :: rest3 =>
        let r2 := rest3.takeWhile isIdChar
        if r2.isEmpty then none
        else
          let rest4 := rest3.dropWhile isIdChar
          match rest4 with
          | '@' :: rest5 =>
            let ver := rest5.takeWhile (fun c => c != '[' && c != ']')
            if ver.isEmpty then
              some (String.mk repo, String.mk r1, String.mk r2, none, skipBracket rest4)
            else
              some (String.mk repo, String.mk r1, String.mk r2, some (String.mk ver),
                skipBracket (rest5.dropWhile (fun c => c != '[' && c != ']')))
          | _ => some (String.mk repo, String.mk r1, String.mk r2, none, skipBracket rest4)
      | _, _ => none
    | _, _ => none
  else none

/-- Non-overlapping left-to-right scan of a line with the internal reference
regex (`Regex::captures_iter`), fuel-indexed for termination. -/
def scanInternal : Nat → List Char → List (String × String)
  | 0, _ => []
  | _ + 1, [] => []
  | fuel + 1, c :: rest =>
    match tryInternalAt (c :: rest) with
    | some (t, i, remaining) => (t, i) :: scanInternal fuel remaining
    | none => scanInternal fuel rest

/-- Non-overlapping left-to-right scan of a line with the external reference
regex, fuel-indexed for termination. -/
def scanExternal : Nat → List Char → List (String × String × String × Option String)
  | 0, _ => []
  | _ + 1, [] => []
  | fuel + 1, c :: rest =>
    match tryExternalAt (c :: rest) with
    | some (repo, t, i, v, remaining) => (repo, t, i, v) :: scanExternal fuel remaining
    | none => scanExternal fuel rest

/-- `ForgepointDocument::extract_cross_references`: per line, all internal
matches then all external matches, with 1-based line numbers. -/
def extract_cross_references (doc : ForgepointDocument) : List CrossReference :=
  (doc.content.enum.map (fun p =>
    (scanInternal (p.2.data.length + 1) p.2.data).map (fun m =>
      ({ ref_type := m.1, id := m.2, line_number := some (p.1 + 1),
         external := false, version := none, repository := none } : CrossReference))
    ++ (scanExternal (p.2.data.length + 1) p.2.data).map (fun m =>
      ({ ref_type := m.2.1, id := m.2.2.1, line_number := some (p.1 + 1),
         external := true, version := m.2.2.2, repository := some m.1 } : CrossReference)))).flatten

/-- Capture of the title regex `^=\s+(.+)$` followed by `.trim()`: the match
requires a single leading marker, one whitespace character, and at least one
further character; the trimmed capture equals the trimmed remainder after the
marker. -/
def titleCapture (line : String) : Option String :=
  match line.data with
  | '=' :: c :: rest =>
    if c.isWhitespace && !rest.isEmpty then some (strTrim (String.mk (c :: rest))) else none
  | _ => none

/-- Capture of the attribute regex `^:([^:]+):\s*(.*)$` followed by `.trim()`
on both captures: a leading colon, a non-empty colon-free key, a second
colon, and the rest as value. -/
def attrCapture (line : String) : Option (String × String) :=
  match line.data with
  | ':' :: rest =>
    match (rest.takeWhile (fun c => c != ':')).isEmpty, rest.dropWhile (fun c => c != ':') with
    | false, ':' :: val =>
      some (strTrim (String.mk (rest.takeWhile (fun c => c != ':'))), strTrim (String.mk val))
    | _, _ => none
  | _ => none

/-- Capture of the section regex `^(=+)\s+(.+)$` followed by `.trim()` on the
title capture: the level is the length of the leading marker run. -/
def headingCapture (line : String) : Option (Nat × String) :=
  match (line.data.takeWhile (fun c => c == '=')).isEmpty,
        line.data.dropWhile (fun c => c == '=') with
  | false, c :: rest =>
    if c.isWhitespace && !rest.isEmpty then
      some ((line.data.takeWhile (fun c => c == '=')).length, strTrim (String.mk (c :: rest)))
    else none
  | _, _ => none

/-- Parser state of `DocumentParser::parse_content` (title, attributes,
emitted sections, the open section, and the header flag). -/
structure ParseState where
  title : Option String
  attributes : List (String × String)
  sections : List Section
  current : Option Section
  in_header : Bool
deriving DecidableEq, Repr

/-- Initial parser state. -/
def initState : ParseState :=
  { title := none, attributes := [], sections := [], current := none, in_header := true }

/-- The open section as a zero-or-one element list (used when a heading or
the end of input closes it). -/
def optSection : Option Section → List Section
  | some s => [s]
  | none => []

/-- One iteration of the `parse_content` loop on a single line. -/
def parseLine (st : ParseState) (lineNumber : Nat) (line : String) : ParseState :=
  if strTrim line == "" then st
  else
    match (if st.title == none && st.in_header then titleCapture line else none) with
    | some t => { st with title := some t }
    | none =>
      match (if st.in_header then attrCapture line else none) with
      | some kv => { st with attributes := alistInsert kv.1 kv.2 st.attributes }
      | none =>
        match headingCapture line with
        | some lt =>
          { st with
            in_header := false
            sections := st.sections ++ optSection st.current
            current := some { level := lt.1, title := lt.2, content := "",
                              line_number := some lineNumber } }
        | none =>
          if st.in_header then st
          else
            match st.current with
            | some s =>
              { st with current := some { s with
                  content := if s.content == "" then line else s.content ++ "\n" ++ line } }
            | none =>
              { st with current := some { level := 0, title := "Content", content := line,
                                          line_number := some lineNumber } }

/-- The `parse_content` loop over the enumerated lines (1-based line
numbers). -/
def parseLines (st : ParseState) (n : Nat) : List String → ParseState
  | [] => st
  | l :: rest => parseLines (parseLine st n l) (n + 1) rest

/-- `DocumentParser::parse_content`: a single forward scan over the lines;
always returns `ok`. -/
def parse_content (lines : List String) (file_path : String) :
    Except ForgepointErrorM ForgepointDocument :=
  let st := parseLines initState 1 lines
  .ok { file_path := file_path, title := st.title, attributes := st.attributes,
        content := lines, sections := st.sections ++ optSection st.current }

/-- One input file of a lint run: its path and the outcome of reading it from
disk (`none` models an unreadable file; `some` gives the content lines). -/
structure InputFile where
  path : String
  read_result : Option (List String)

/-- `DocumentParser::parse_file`: reading failure becomes a `Parsing` error;
otherwise the content is parsed. -/
def parse_file (f : InputFile) : Except ForgepointErrorM ForgepointDocument :=
  match f.read_result with
  | none => .error (.Parsing ("Failed to read file " ++ quoteSq f.path ++ ": io error"))
  | some ls => parse_content ls f.path

/-- Does a line match the section regex with a marker run of length exactly
two (a level-2 heading)? -/
def isLevel2Heading (line : String) : Bool :=
  match headingCapture line with
  | some lt => lt.1 == 2
  | none => false

/-- The section list the parser would emit if the input ended in this
state. -/
def finalSections (st : ParseState) : List Section :=
  st.sections ++ optSection st.current

/-- Titles of the level-2 sections the parser would emit in this state. -/
def finalL2Titles (st : ParseState) : List String :=
  ((finalSections st).filter (fun s => s.level == 2)).map (fun s => s.title)

/-- `ErrorType` of validator.rs. -/
inductive ErrorType where
  | Schema
  | Structure
  | Reference
  | IdConflict
  | Format
deriving DecidableEq, Repr

/-- `Severity` of validator.rs. -/
inductive Severity where
  | Error
  | Warning
deriving DecidableEq, Repr

/-- `Location` of validator.rs (the `section` field is named `sect` because
`section` is a Lean keyword). -/
structure Location where
  line : Option Nat
  column : Option Nat
  sect : Option String
deriving DecidableEq, Repr

/-- `ValidationError` of validator.rs. -/
structure ValidationError where
  error_type : ErrorType
  severity : Severity
  message : String
  location : Option Location
  rule : Option String
  suggestion : Option String
deriving DecidableEq, Repr

/-- `ValidationResult` of validator.rs. -/
structure ValidationResult where
  file_path : String
  document_type : Option String
  document_id : Option String
  valid : Bool
  errors : List ValidationError
  warnings : List ValidationError
deriving DecidableEq, Repr

/-- `DocumentInfo` of validator.rs. -/
structure DocumentInfo where
  file_path : String
  title : Option String
deriving DecidableEq, Repr

/-- The run-wide document index `HashMap<String, HashMap<String, DocumentInfo>>`,
modelled as a nested association list. -/
abbrev DocumentIndex : Type := List (String × List (String × DocumentInfo))

/-- Inner-map insert with overwrite. -/
def infoInsert (id : String) (info : DocumentInfo) :
    List (String × DocumentInfo) → List (String × DocumentInfo)
  | [] => [(id, info)]
  | (k, v) :: rest =>
    if k == id then (id, info) :: rest else (k, v) :: infoInsert id info rest

/-- `document_index.entry(t).or_insert_with(HashMap::new).insert(id, info)`. -/
def indexInsert (t id : String) (info : DocumentInfo) : DocumentIndex → DocumentIndex
  | [] => [(t, [(id, info)])]
  | (k, m) :: rest =>
    if k == t then (k, infoInsert id info m) :: rest else (k, m) :: indexInsert t id info rest

/-- `document_index.get(t).and_then(|docs| docs.get(id))`. -/
def indexLookup (t id : String) : DocumentIndex → Option DocumentInfo
  | [] => none
  | (k, m) :: rest =>
    if k == t then
      (m.find? (fun p => p.1 == id)).map (fun p => p.2)
    else indexLookup t id rest

/-- `TitleRequirement` of schema.rs. -/
structure TitleRequirement where
  required : Option Bool
  format : Option String
  description : Option String
deriving DecidableEq, Repr

/-- `SectionRequirements` of schema.rs. -/
structure SectionRequirements where
  required : Option (List String)
  optional : Option (List String)
  description : Option String
deriving DecidableEq, Repr

/-- `AbstractRequirement` of schema.rs. -/
structure AbstractRequirement where
  required : Option Bool
  description : Option String
deriving DecidableEq, Repr

/-- `StructuralRequirements` of schema.rs. -/
structure StructuralRequirements where
  title : Option TitleRequirement
  sections : Option SectionRequirements
  abstract_req : Option AbstractRequirement
deriving DecidableEq, Repr

/-- Default structural requirements (`unwrap_or` value in `load_schema`). -/
def emptyStructuralRequirements : StructuralRequirements :=
  { title := none, sections := none, abstract_req := none }

/-- `DocumentTypeDefinition` of schema.rs. -/
structure DocumentTypeDefinition where
  doc_type : String
  name : String
  description : String
  category : String
  schema : String
deriving DecidableEq, Repr

/-- `CompiledSchema` of schema.rs.  The `attrCheck` field models the injected
JSON-Schema capability (serialization plus `JSONSchema::validate` of the
external `jsonschema` crate): `Except.error` models a serialization failure,
`Except.ok msgs` the list of violation messages. -/
structure CompiledSchema where
  definition : DocumentTypeDefinition
  attrCheck : List (String × String) → Except String (List String)
  structural_requirements : StructuralRequirements

/-- `SchemaRegistry` of schema.rs (only the field the loader loop uses). -/
structure SchemaRegistry where
  document_types : List DocumentTypeDefinition
deriving DecidableEq, Repr

/-- `SchemaLoader` state of schema.rs. -/
structure SchemaLoader where
  registry : Option SchemaRegistry
  compiled_schemas : List (String × CompiledSchema)

/-- `SchemaLoader::new`: empty registry and no compiled schemas. -/
def newSchemaLoader : SchemaLoader := { registry := none, compiled_schemas := [] }

/-- `SchemaLoader::get_schema`. -/
def get_schema (L : SchemaLoader) (doc_type : String) : Option CompiledSchema :=
  (L.compiled_schemas.find? (fun p => p.1 == doc_type)).map (fun p => p.2)

/-- `SchemaLoader::is_valid_document_type`. -/
def is_valid_document_type (L : SchemaLoader) (doc_type : String) : Bool :=
  (get_schema L doc_type).isSome

/-- `SchemaLoader::validate_attributes`. -/
def validate_attributes (L : SchemaLoader) (doc_type : String)
    (attrs : List (String × String)) : Except String (List String) :=
  match get_schema L doc_type with
  | none => .error (errToString (.InvalidDocumentType doc_type))
  | some s => s.attrCheck attrs

/-- `SchemaLoader::get_required_sections`. -/
def get_required_sections (L : SchemaLoader) (doc_type : String) : List String :=
  ((get_schema L doc_type).bind (fun s => s.structural_requirements.sections)).bind
    (fun s => s.required) |>.getD []

/-- `SchemaLoader::is_abstract_required`. -/
def is_abstract_required (L : SchemaLoader) (doc_type : String) : Bool :=
  (((get_schema L doc_type).bind (fun s => s.structural_requirements.abstract_req)).bind
    (fun a => a.required)).getD false

/-- `SchemaLoader::get_title_format`. -/
def get_title_format (L : SchemaLoader) (doc_type : String) : Option String :=
  ((get_schema L doc_type).bind (fun s => s.structural_requirements.title)).bind
    (fun t => t.format)

/-- Findings of `DocumentValidator::validate_references` (the private
`ValidationResults` pair of validator.rs). -/
structure RefFindings where
  errors : List ValidationError
  warnings : List ValidationError
deriving DecidableEq, Repr

/-- The warning pushed for an external cross-reference. -/
def extRefWarning (r : CrossReference) : ValidationError :=
  { error_type := .Reference, severity := .Warning,
    message := "External reference cannot be validated: " ++ r.ref_type ++ ":" ++ r.id,
    location := r.line_number.map (fun l => { line := some l, column := none, sect := none }),
    rule := some "external-reference", suggestion := none }

/-- The error pushed for an unresolved internal cross-reference. -/
def brokenRefError (r : CrossReference) : ValidationError :=
  { error_type := .Reference, severity := .Error,
    message := "Reference to non-existent document: " ++ r.ref_type ++ ":" ++ r.id,
    location := r.line_number.map (fun l => { line := some l, column := none, sect := none }),
    rule := some "reference-integrity",
    suggestion := some "Create the referenced document or fix the reference" }

/-- Loop of `DocumentValidator::validate_references` over a reference list:
external references push one warning each; internal references whose target
is absent from the index push one error each. -/
def refsFindings (idx : DocumentIndex) : List CrossReference → RefFindings
  | [] => { errors := [], warnings := [] }
  | r :: rest =>
    let f := refsFindings idx rest
    if r.external then { f with warnings := extRefWarning r :: f.warnings }
    else if (indexLookup r.ref_type r.id idx).isSome then f
    else { f with errors := brokenRefError r :: f.errors }

/-- `DocumentValidator::validate_references`. -/
def validate_references (idx : DocumentIndex) (doc : ForgepointDocument) : RefFindings :=
  refsFindings idx (extract_cross_references doc)

/-- `DocumentValidator::index_document`: insert (type, id) with overwrite
when both attributes are present. -/
def index_document (doc : ForgepointDocument) (idx : DocumentIndex) : DocumentIndex :=
  match document_type doc, document_id doc with
  | some t, some i =>
    indexInsert t i { file_path := doc.file_path, title := doc.title } idx
  | _, _ => idx

/-- The single structural error returned when the required attributes are
missing. -/
def missingStructureError : ValidationError :=
  { error_type := .Structure, severity := .Error,
    message := "Document missing required Forgepoint attributes (:forgepoint-type:, :id:, :schema-version:)",
    location := none,
    rule := some "require-forgepoint-structure",
    suggestion := some "Add the required attributes to the document header" }

/-- Errors accumulated for a resolved document type (unknown type, or schema
validation plus required-section plus abstract checks). -/
def typeErrors (L : SchemaLoader) (doc : ForgepointDocument) (t : String) :
    List ValidationError :=
  if !is_valid_document_type L t then
    [{ error_type := .Schema, severity := .Error,
       message := "Unknown document type: " ++ t,
       location := none,
       rule := some "valid-document-type",
       suggestion := some ("Use " ++ quoteSq "forgepoint list-types"
         ++ " to see available document types") }]
  else
    (match validate_attributes L t doc.attributes with
     | .ok schemaErrors =>
       schemaErrors.map (fun m =>
         { error_type := .Schema, severity := .Error, message := m,
           location := some { line := none, column := none, sect := some "attributes" },
           rule := some "schema-validation", suggestion := none })
     | .error e =>
       [{ error_type := .Schema, severity := .Error,
          message := "Schema validation failed: " ++ e,
          location := none, rule := some "schema-validation", suggestion := none }])
    ++ ((get_required_sections L t).filter
          (fun req => !((level_2_sections doc).map (fun s => s.title)).contains req)).map
        (fun req =>
          { error_type := .Structure, severity := .Error,
            message := "Missing required section: " ++ req,
            location := none, rule := some "required-sections",
            suggestion := some ("Add a " ++ apos ++ "== " ++ req ++ apos
              ++ " section to your document") })
    ++ (if is_abstract_required L t && (abstract_content doc).isNone then
          [{ error_type := .Structure, severity := .Error,
             message := "Document requires an abstract",
             location := none, rule := some "required-abstract",
             suggestion := some "Add an [abstract] block after the title" }]
        else [])

/-- Warnings accumulated for a resolved document type (the title-format
hint). -/
def typeWarnings (L : SchemaLoader) (t : String) : List ValidationError :=
  if is_valid_document_type L t then
    match get_title_format L t with
    | some fmt =>
      if fmt.data.contains '{' then
        [{ error_type := .Format, severity := .Warning,
           message := "Consider following the recommended title format: " ++ fmt,
           location := none, rule := some "title-format", suggestion := none }]
      else []
    | none => []
  else []

/-- The error pushed when `validate_id_format` fails. -/
def idFormatErrors (doc : ForgepointDocument) : List ValidationError :=
  match validate_id_format doc with
  | .ok _ => []
  | .error e =>
    [{ error_type := .Format, severity := .Error, message := errToString e,
       location := none, rule := some "id-format",
       suggestion := some "Use only lowercase letters, numbers, and hyphens" }]

/-- `DocumentValidator::validate_document`: short-circuit on a missing
required attribute; otherwise accumulate type, id-format and reference
findings, index the document, and return validity as error emptiness.
Returns the result together with the updated document index. -/
def validate_document (L : SchemaLoader) (idx : DocumentIndex)
    (doc : ForgepointDocument) : ValidationResult × DocumentIndex :=
  if !has_forgepoint_structure doc then
    ({ file_path := doc.file_path, document_type := none, document_id := none,
       valid := false, errors := [missingStructureError], warnings := [] }, idx)
  else
    let refFinds := validate_references idx doc
    let errors :=
      (match document_type doc with
       | some t => typeErrors L doc t
       | none => [])
      ++ idFormatErrors doc
      ++ refFinds.errors
    let warnings :=
      (match document_type doc with
       | some t => typeWarnings L t
       | none => [])
      ++ refFinds.warnings
    ({ file_path := doc.file_path, document_type := document_type doc,
       document_id := document_id doc, valid := errors.isEmpty,
       errors := errors, warnings := warnings },
     index_document doc idx)

/-- Accumulator step of `check_id_uniqueness`: push one (type, file_path)
occurrence for an id into the id-keyed association list. -/
def pushOccurrence (id : String) (occ : String × String) :
    List (String × List (String × String)) → List (String × List (String × String))
  | [] => [(id, [occ])]
  | (k, v) :: rest =>
    if k == id then (k, v ++ [occ]) :: rest else (k, v) :: pushOccurrence id occ rest

/-- First loop of `check_id_uniqueness`: collect all (type, file_path)
occurrences per id from the index. -/
def collectAllIds (idx : DocumentIndex) : List (String × List (String × String)) :=
  idx.foldl (fun acc p =>
    p.2.foldl (fun acc2 q => pushOccurrence q.1 (p.1, q.2.file_path) acc2) acc) []

/-- One IdConflict error for one occurrence of a duplicated id, naming the
other occurrences. -/
def dupError (id : String) (occs : List (String × String)) (occ : String × String) :
    ValidationError :=
  { error_type := .IdConflict, severity := .Error,
    message := "Duplicate ID " ++ quoteSq id ++ " found in " ++ occ.1
      ++ " (conflicts with "
      ++ String.intercalate ", "
          ((occs.filter (fun o => o.2 != occ.2)).map (fun o => o.1 ++ " in " ++ o.2))
      ++ ")",
    location := none, rule := some "unique-ids",
    suggestion := some "Change one of the conflicting IDs" }

/-- `DocumentValidator::check_id_uniqueness`: one IdConflict error per
occurrence of every id with more than one collected occurrence. -/
def check_id_uniqueness (idx : DocumentIndex) : List ValidationError :=
  (collectAllIds idx).foldl (fun errs p =>
    if p.2.length > 1 then errs ++ p.2.map (dupError p.1 p.2) else errs) []

/-- `ForgepointLinter::create_parse_error_result`: the single synthetic
Format-error result for a file that failed to parse. -/
def create_parse_error_result (path : String) (e : ForgepointErrorM) : ValidationResult :=
  { file_path := path, document_type := none, document_id := none, valid := false,
    errors := [{ error_type := .Format, severity := .Error,
                 message := "Failed to parse file: " ++ errToString e,
                 location := none, rule := some "file-parsing", suggestion := none }],
    warnings := [] }

/-- First pass of `lint_files` for one file: parse it and validate it against
the shared validator state, or produce the synthetic parse-error result. -/
def lintStep (L : SchemaLoader) (acc : DocumentIndex × List ValidationResult)
    (f : InputFile) : DocumentIndex × List ValidationResult :=
  match parse_file f with
  | .ok doc =>
    let r := validate_document L acc.1 doc
    (r.2, acc.2 ++ [r.1])
  | .error e => (acc.1, acc.2 ++ [create_parse_error_result f.path e])

/-- Second pass of `lint_files`: attach every duplicate-ID error to every
result whose document id occurs as a substring of the error message, marking
those results invalid. -/
def attachDupErrors (dups : List ValidationError) (results : List ValidationResult) :
    List ValidationResult :=
  dups.foldl (fun rs e =>
    rs.map (fun r =>
      match r.document_id with
      | some did =>
        if strContains e.message did then
          { r with errors := r.errors ++ [e], valid := false }
        else r
      | none => r)) results

/-- `ForgepointLinter::lint_files` on already-discovered files, modelled
sequentially in file-discovery order (the source iterates in parallel over a
mutex-guarded validator; the per-file validation and indexing of each file
happen atomically, and results are collected in file order).  The validator
is built from `SchemaLoader::new` without loading schemas, exactly as in the
source; `check_id_uniqueness` is enabled, as in the default configuration. -/
def lint_files (files : List InputFile) : List ValidationResult :=
  let firstPass := files.foldl (lintStep newSchemaLoader) ([], [])
  attachDupErrors (check_id_uniqueness firstPass.1) firstPass.2

/-- Parsed content of one schema file: the extracted structural requirements
(already defaulted), whether the schema body compiles, and the resulting
validator capability. -/
structure SchemaJson where
  structural : StructuralRequirements
  compiles : Bool
  attrCheck : List (String × String) → Except String (List String)

/-- Abstraction of the schema directory on disk: the index file (`none` when
absent) and, per referenced schema file name, the read/parse outcome
(`none` = the file is absent; `some none` = present but not valid JSON;
`some (some j)` = parsed content `j`). -/
structure SchemaDir where
  index : Option SchemaRegistry
  schema_files : String → Option (Option SchemaJson)

/-- `compiled_schemas.insert` (`HashMap::insert` with overwrite). -/
def schemasInsert (k : String) (v : CompiledSchema) :
    List (String × CompiledSchema) → List (String × CompiledSchema)
  | [] => [(k, v)]
  | (k', v') :: rest =>
    if k' == k then (k, v) :: rest else (k', v') :: schemasInsert k v rest

/-- `SchemaLoader::load_schema`: a missing schema file is skipped with a
non-fatal warning; an unparseable file fails with a Json error; a
non-compiling schema fails with a Schema error naming the type; otherwise the
document-type definition is looked up in `self.registry` — which at this
point of `load_schemas` has not been assigned yet — and its absence fails
with a Schema error.  (Error messages elide the dynamic suffixes of the
source format strings except for the offending type name.) -/
def load_schema (fs : SchemaDir) (st : SchemaLoader) (doc_type schema_file : String) :
    Except ForgepointErrorM SchemaLoader :=
  match fs.schema_files schema_file with
  | none => .ok st
  | some none => .error (.Json ("invalid schema file " ++ schema_file))
  | some (some j) =>
    if !j.compiles then
      .error (.Schema ("Failed to compile schema for " ++ doc_type))
    else
      match st.registry.bind
          (fun r => r.document_types.find? (fun dt => dt.doc_type == doc_type)) with
      | none => .error (.Schema ("Document type definition not found: " ++ doc_type))
      | some defn =>
        let compiled : CompiledSchema :=
          { definition := defn, attrCheck := j.attrCheck,
            structural_requirements := j.structural }
        .ok { st with compiled_schemas := schemasInsert doc_type compiled st.compiled_schemas }

/-- The `for doc_type in &registry.document_types` loop of `load_schemas`,
propagating the first error. -/
def loadSchemaList (fs : SchemaDir) :
    SchemaLoader → List DocumentTypeDefinition → Except ForgepointErrorM SchemaLoader
  | st, [] => .ok st
  | st, dt :: rest =>
    match load_schema fs st dt.doc_type dt.schema with
    | .error e => .error e
    | .ok st' => loadSchemaList fs st' rest

/-- `SchemaLoader::load_schemas`: fail with FileNotFound when the index file
is absent; otherwise load every referenced schema, and only then assign the
registry field. -/
def load_schemas (fs : SchemaDir) (st : SchemaLoader) : Except ForgepointErrorM SchemaLoader :=
  match fs.index with
  | none => .error (.FileNotFound "Schema index not found")
  | some reg =>
    match loadSchemaList fs st reg.document_types with
    | .error e => .error e
    | .ok st' => .ok { st' with registry := some reg }

/-- Concrete document with a given id and all three required attributes
(used by the id-format scenario). -/
def docWithId (id : String) : ForgepointDocument :=
  { file_path := "t.adoc", title := none,
    attributes := [("forgepoint-type", "story"), ("id", id), ("schema-version", "1.0")],
    content := [], sections := [] }

/-- Concrete document carrying only content lines (used by the abstract and
reference scenarios). -/
def mkDoc (lines : List String) : ForgepointDocument :=
  { file_path := "d.adoc", title := none, attributes := [], content := lines,
    sections := [] }

/-- Concrete document with no attributes at all. -/
def noAttrsDoc : ForgepointDocument := mkDoc ["test content"]

/-- Concrete document declaring `forgepoint-type` and `id` but no
`schema-version`. -/
def noSchemaVerDoc : ForgepointDocument :=
  { file_path := "x.adoc", title := some "X",
    attributes := [("forgepoint-type", "story"), ("id", "x-1")],
    content := [], sections := [] }

/-- Concrete document with all three required attributes, an unknown type
and an invalid id format (still expected to be indexed). -/
def badButCompleteDoc : ForgepointDocument :=
  { file_path := "y.adoc", title := some "Y",
    attributes := [("forgepoint-type", "mystery"), ("id", "Bad_ID"),
                   ("schema-version", "1.0")],
    content := [], sections := [] }

/-- File A of the forward-reference scenario: it cross-references
`story:checkout` and is discovered first. -/
def fileA : InputFile :=
  { path := "a.adoc",
    read_result := some ["= Doc A", ":forgepoint-type: epic", ":id: a-doc",
                         ":schema-version: 1.0", "", "xref:story:checkout[]"] }

/-- File B of the forward-reference scenario: it declares
`type=story, id=checkout` and is discovered after file A. -/
def fileB : InputFile :=
  { path := "b.adoc",
    read_result := some ["= Doc B", ":forgepoint-type: story", ":id: checkout",
                         ":schema-version: 1.0"] }

/-- First file of the duplicate-ID scenario (`type=story, id=login-flow`). -/
def fileOne : InputFile :=
  { path := "one.adoc",
    read_result := some ["= One", ":forgepoint-type: story", ":id: login-flow",
                         ":schema-version: 1.0"] }

/-- Second file of the duplicate-ID scenario (same type and id as the
first). -/
def fileTwo : InputFile :=
  { path := "two.adoc",
    read_result := some ["= Two", ":forgepoint-type: story", ":id: login-flow",
                         ":schema-version: 1.0"] }

/-- Document-type definition of the schema-loading scenario. -/
def storyDef : DocumentTypeDefinition :=
  { doc_type := "story", name := "User Story", description := "Test story",
    category := "design", schema := "story.json" }

/-- A schema file that parses and compiles. -/
def storyJson : SchemaJson :=
  { structural := emptyStructuralRequirements, compiles := true,
    attrCheck := fun _ => .ok [] }

/-- Schema directory with no index file. -/
def fsNoIndex : SchemaDir := { index := none, schema_files := fun _ => none }

/-- Schema directory whose index references a schema file that is absent. -/
def fsMissingSchema : SchemaDir :=
  { index := some { document_types := [storyDef] }, schema_files := fun _ => none }

/-- Schema directory whose index references a schema file that exists and
compiles. -/
def fsGood : SchemaDir :=
  { index := some { document_types := [storyDef] },
    schema_files := fun f => if f == "story.json" then some (some storyJson) else none }

/-- C5: `validate_id_format` accepts "my-id" and rejects "-bad", "bad-",
"ba--d" and "Bad_ID" with `InvalidIdFormat`; each rejection carries the
message specific to the rule it violates (character class, leading/trailing
hyphen, consecutive hyphens), and the three rule messages are pairwise
distinct.  ("-bad" and "bad-" violate the same rule and so share that rule's
message.) -/
theorem C5_id_format_cases :
    validate_id_format (docWithId "my-id") = .ok () ∧
    validate_id_format (docWithId "-bad") =
      .error (.InvalidIdFormat "ID cannot start or end with a hyphen") ∧
    validate_id_format (docWithId "bad-") =
      .error (.InvalidIdFormat "ID cannot start or end with a hyphen") ∧
    validate_id_format (docWithId "ba--d") =
      .error (.InvalidIdFormat "ID cannot contain consecutive hyphens") ∧
    validate_id_format (docWithId "Bad_ID") =
      .error (.InvalidIdFormat
        ("ID " ++ quoteSq "Bad_ID" ++ " must contain only lowercase letters, numbers, and hyphens")) ∧
    ("ID " ++ quoteSq "Bad_ID" ++ " must contain only lowercase letters, numbers, and hyphens")
      ≠ "ID cannot start or end with a hyphen" ∧
    ("ID " ++ quoteSq "Bad_ID" ++ " must contain only lowercase letters, numbers, and hyphens")
      ≠ "ID cannot contain consecutive hyphens" ∧
    "ID cannot start or end with a hyphen" ≠ "ID cannot contain consecutive hyphens" := by
  decide

/-- C4: evaluating `load_schemas` at the three scenarios of the claim.  An
absent index file fails with FileNotFound, and a missing referenced schema
file is skipped non-fatally (the type stays unknown).  But a referenced
schema file that exists and compiles makes the whole load fail with a Schema
error "Document type definition not found", because `load_schema` consults
the `registry` field, which `load_schemas` assigns only after its loading
loop — contradicting the claim (and the source's own `test_schema_loading`
unit test, which asserts this load succeeds and `is_valid_document_type
"story"` holds). -/
theorem C4_load_schemas_bug :
    load_schemas fsNoIndex newSchemaLoader = .error (.FileNotFound "Schema index not found") ∧
    (∃ L, load_schemas fsMissingSchema newSchemaLoader = .ok L ∧
      is_valid_document_type L "story" = false) ∧
    load_schemas fsGood newSchemaLoader =
      .error (.Schema "Document type definition not found: story") :=
  ⟨rfl, ⟨_, rfl, rfl⟩, rfl⟩

/-- C1: linting file A (which cross-references `story:checkout`) before file
B (which declares `type=story, id=checkout`) leaves a Reference error in A's
batch-level result: references are resolved against the index as each file
is validated, and `lint_files`' second pass only checks ID uniqueness, never
re-resolving references — contradicting the claim that the forward reference
resolves at batch level. -/
theorem C1_forward_reference_error :
    (lint_files [fileA, fileB]).map (fun r => (r.document_type, r.document_id))
      = [(some "epic", some "a-doc"), (some "story", some "checkout")] ∧
    (lint_files [fileA, fileB]).map (fun r =>
      (r.file_path,
       (r.errors.filter (fun e => e.error_type == ErrorType.Reference)).length))
      = [("a.adoc", 1), ("b.adoc", 0)] := by
  decide

/-- C2: linting two files that both declare `type=story, id=login-flow` in
one batch yields no IdConflict error in either result: `index_document`
overwrites the earlier entry for the same (type, id), so `check_id_uniqueness`
sees a single occurrence — contradicting the claim that both results carry an
IdConflict error naming the other file. -/
theorem C2_duplicate_id_not_detected :
    (lint_files [fileOne, fileTwo]).map (fun r => (r.document_type, r.document_id))
      = [(some "story", some "login-flow"), (some "story", some "login-flow")] ∧
    (lint_files [fileOne, fileTwo]).map (fun r =>
      (r.errors.filter (fun e => e.error_type == ErrorType.IdConflict)).length)
      = [0, 0] := by
  decide

/-- C3 counterexample: for a document with no attributes, the single error of
the short-circuit result carries rule "require-forgepoint-structure", not
"require-structure" as the claim states. -/
theorem C3_rule_name_counterexample :
    has_forgepoint_structure noAttrsDoc = false ∧
    (validate_document newSchemaLoader [] noAttrsDoc).1.valid = false ∧
    ((validate_document newSchemaLoader [] noAttrsDoc).1.errors.map (fun e => e.rule))
      = [some "require-forgepoint-structure"] ∧
    ((validate_document newSchemaLoader [] noAttrsDoc).1.errors.map (fun e => e.rule))
      ≠ [some "require-structure"] := by
  decide

/-- C3 (amended): for every document missing one of the three required
attributes, `validate_document` returns exactly the short-circuit result —
valid=false, exactly one error with rule "require-forgepoint-structure" — and
performs no other check and no indexing (the returned index is unchanged). -/
theorem C3_missing_structure_short_circuit (L : SchemaLoader) (idx : DocumentIndex)
    (doc : ForgepointDocument) (h : has_forgepoint_structure doc = false) :
    validate_document L idx doc =
      ({ file_path := doc.file_path, document_type := none, document_id := none,
         valid := false, errors := [missingStructureError], warnings := [] }, idx) := by
  unfold validate_document
  simp [h]

/-- C3 witness: the short-circuit theorem applied to the concrete document
with no attributes. -/
theorem C3_missing_structure_short_circuit_witness :
    validate_document newSchemaLoader [] noAttrsDoc =
      ({ file_path := noAttrsDoc.file_path, document_type := none, document_id := none,
         valid := false, errors := [missingStructureError], warnings := [] },
       ([] : DocumentIndex)) :=
  C3_missing_structure_short_circuit newSchemaLoader [] noAttrsDoc (by decide)

/-- C10: `parse_content` is total — it returns a document for every input —
and `parse_file` on a readable file is exactly `parse_content` on its
content, so the synthetic parse-failure result can only arise from a file
that cannot be read. -/
theorem C10_parse_total :
    (∀ (lines : List String) (path : String), ∃ doc, parse_content lines path = .ok doc) ∧
    (∀ (f : InputFile) (ls : List String), f.read_result = some ls →
      parse_file f = parse_content ls f.path) := by
  constructor
  · intro lines path
    exact ⟨_, rfl⟩
  · intro f ls h
    simp [parse_file, h]

/-- C10 witness: totality and the readable-file equation at a concrete
file. -/
theorem C10_parse_total_witness :
    (∃ doc, parse_content ["= T"] "w.adoc" = .ok doc) ∧
    parse_file { path := "w.adoc", read_result := some ["= T"] } =
      parse_content ["= T"] "w.adoc" :=
  ⟨C10_parse_total.1 ["= T"] "w.adoc",
   C10_parse_total.2 { path := "w.adoc", read_result := some ["= T"] } ["= T"] rfl⟩

/-- Helper: the reference-check loop maps external references to warnings
and unresolved internal references to errors, in order. -/
theorem refsFindings_spec (idx : DocumentIndex) (refs : List CrossReference) :
    (refsFindings idx refs).warnings =
      (refs.filter (fun r => r.external)).map extRefWarning ∧
    (refsFindings idx refs).errors =
      (refs.filter (fun r =>
        !r.external && !(indexLookup r.ref_type r.id idx).isSome)).map brokenRefError := by
  induction refs with
  | nil => exact ⟨rfl, rfl⟩
  | cons r rest ih =>
    rcases ih with ⟨ihw, ihe⟩
    by_cases hext : r.external
    · simp [refsFindings, hext, ihw, ihe, List.filter_cons]
    · by_cases hlook : (indexLookup r.ref_type r.id idx).isSome
      · obtain ⟨v, hv⟩ := Option.isSome_iff_exists.mp hlook
        simp [refsFindings, hext, hlook, ihw, ihe, List.filter_cons, hv]
      · have hnone := Option.not_isSome_iff_eq_none.mp hlook
        simp [refsFindings, hext, hlook, ihw, ihe, List.filter_cons, hnone]

/-- C6: in the validator's cross-reference check, every extracted reference
with `external = true` yields exactly one finding — a Warning of Reference
kind — and never an error, regardless of the index contents: the warning
list is exactly the external references in order, and the error list is
drawn exclusively from the internal references whose target is absent. -/
theorem C6_external_references_warn (idx : DocumentIndex) (doc : ForgepointDocument) :
    (validate_references idx doc).warnings =
      ((extract_cross_references doc).filter (fun r => r.external)).map extRefWarning ∧
    (validate_references idx doc).errors =
      ((extract_cross_references doc).filter (fun r =>
        !r.external && !(indexLookup r.ref_type r.id idx).isSome)).map brokenRefError ∧
    (∀ r : CrossReference,
      (extRefWarning r).severity = Severity.Warning ∧
      (extRefWarning r).error_type = ErrorType.Reference) := by
  refine ⟨(refsFindings_spec idx _).1, (refsFindings_spec idx _).2, ?_⟩
  intro r
  exact ⟨rfl, rfl⟩

/-- C9 counterexample: a document declaring `forgepoint-type` and `id` but
no `schema-version` is not inserted into the index by `validate_document` —
the structure short-circuit fires before indexing, so the claim's premise
(type and id keys present) does not suffice. -/
theorem C9_counterexample :
    (alistLookup ("forgepoint-type") noSchemaVerDoc.attributes).isSome = true ∧
    (alistLookup ("id") noSchemaVerDoc.attributes).isSome = true ∧
    (validate_document newSchemaLoader [] noSchemaVerDoc).2 = ([] : DocumentIndex) ∧
    indexLookup "story" "x-1" (validate_document newSchemaLoader [] noSchemaVerDoc).2
      = none := by
  decide

/-- Helper: looking up an id in an inner map just after inserting it yields
the inserted info. -/
theorem infoInsert_find (id : String) (info : DocumentInfo)
    (m : List (String × DocumentInfo)) :
    ((infoInsert id info m).find? (fun p => p.1 == id)).map (fun p => p.2) = some info := by
  induction m with
  | nil => simp [infoInsert, List.find?]
  | cons p rest ih =>
    by_cases h : p.1 == id
    · simp [infoInsert, h, List.find?]
    · simp only [infoInsert, h]
      simp only [Bool.not_eq_true] at h
      simp [List.find?, h, ih]

/-- Helper: looking up (type, id) just after inserting it yields the
inserted info. -/
theorem indexInsert_lookup (t id : String) (info : DocumentInfo) (idx : DocumentIndex) :
    indexLookup t id (indexInsert t id info idx) = some info := by
  induction idx with
  | nil => simp [indexInsert, indexLookup, infoInsert, List.find?]
  | cons p rest ih =>
    by_cases h : p.1 == t
    · have hpt : (p.1 == t) = true := h
      cases p with
      | mk k m =>
        simp only [indexInsert, indexLookup, hpt, if_true]
        simp only at hpt
        simp [indexLookup, hpt, infoInsert_find]
    · have hpt : (p.1 == t) = false := by simpa using h
      cases p with
      | mk k m =>
        simp only [indexInsert, indexLookup, hpt, if_false]
        simp [indexLookup, hpt, ih]

/-- C9 (amended): every document satisfying `has_forgepoint_structure` (all
three required attributes present) is inserted into the run-wide index by
`validate_document`, regardless of its validation outcome — the updated
index resolves (type, id) to the document's path and title. -/
theorem C9_complete_docs_indexed (L : SchemaLoader) (idx : DocumentIndex)
    (doc : ForgepointDocument) (h : has_forgepoint_structure doc = true) :
    ∃ t i, document_type doc = some t ∧ document_id doc = some i ∧
      indexLookup t i (validate_document L idx doc).2 =
        some { file_path := doc.file_path, title := doc.title } := by
  have hs : (["forgepoint-type", "id", "schema-version"] : List String).all
      (fun attr => (alistLookup attr doc.attributes).isSome) = true := h
  simp only [List.all_cons, List.all_nil, Bool.and_eq_true, Bool.and_true] at hs
  obtain ⟨ht, hi, _⟩ := hs
  obtain ⟨t, ht⟩ := Option.isSome_iff_exists.mp ht
  obtain ⟨i, hi⟩ := Option.isSome_iff_exists.mp hi
  refine ⟨t, i, ht, hi, ?_⟩
  have hns : (!has_forgepoint_structure doc) = false := by simp [h]
  simp only [validate_document, hns, Bool.false_eq_true, if_false]
  simp only [index_document, document_type, document_id] at *
  rw [ht, hi]
  exact indexInsert_lookup t i _ idx

/-- C9 witness: a document with all three required attributes, an unknown
type and an invalid id is still indexed. -/
theorem C9_complete_docs_indexed_witness :
    ∃ t i, document_type badButCompleteDoc = some t ∧
      document_id badButCompleteDoc = some i ∧
      indexLookup t i (validate_document newSchemaLoader [] badButCompleteDoc).2 =
        some { file_path := badButCompleteDoc.file_path, title := badButCompleteDoc.title } :=
  C9_complete_docs_indexed newSchemaLoader [] badButCompleteDoc (by decide)

/-- Helper: a line that is not a level-2 heading never changes the emitted
level-2 section titles. -/
theorem parseLine_finalL2 (st : ParseState) (n : Nat) (l : String)
    (h : isLevel2Heading l = false) :
    finalL2Titles (parseLine st n l) = finalL2Titles st := by
  unfold parseLine
  split
  · rfl
  · split
    · rfl
    · split
      · rfl
      · split
        · rename_i lt heq
          have hlt : (lt.1 == 2) = false := by
            simpa [isLevel2Heading, heq] using h
          simp [finalL2Titles, finalSections, optSection, List.filter_append, hlt]
        · split
          · rfl
          · split
            · rename_i s hcur
              simp only [finalL2Titles, finalSections, optSection, hcur]
              by_cases h2 : s.level == 2 <;>
                simp [List.filter_append, h2]
            · rename_i hcur
              simp [finalL2Titles, finalSections, optSection, List.filter_append, hcur]

/-- Helper: a list of non-level-2-heading lines never changes the emitted
level-2 section titles. -/
theorem parseLines_finalL2 (ls : List String) :
    ∀ (st : ParseState) (n : Nat), (∀ l ∈ ls, isLevel2Heading l = false) →
      finalL2Titles (parseLines st n ls) = finalL2Titles st := by
  induction ls with
  | nil => intro st n _; rfl
  | cons l rest ih =>
    intro st n h
    have hl := h l (List.mem_cons_self l rest)
    have hrest : ∀ x ∈ rest, isLevel2Heading x = false :=
      fun x hx => h x (List.mem_cons_of_mem l hx)
    calc finalL2Titles (parseLines (parseLine st n l) (n + 1) rest)
        = finalL2Titles (parseLine st n l) := ih (parseLine st n l) (n + 1) hrest
      _ = finalL2Titles st := parseLine_finalL2 st n l hl

/-- Helper: `parseLines` splits over list append. -/
theorem parseLines_append (xs ys : List String) :
    ∀ (st : ParseState) (n : Nat),
      parseLines st n (xs ++ ys) = parseLines (parseLines st n xs) (n + xs.length) ys := by
  induction xs with
  | nil => intro st n; simp [parseLines]
  | cons x t ih =>
    intro st n
    show parseLines (parseLine st n x) (n + 1) (t ++ ys) = _
    rw [ih (parseLine st n x) (n + 1)]
    have : n + 1 + t.length = n + (t ++ []).length + 1 := by simp; omega
    simp only [parseLines, List.length_cons]
    congr 1
    omega

/-- Helper: processing a line that the parser classifies as a level-2
heading with title `t` appends `t` to the emitted level-2 titles. -/
theorem parseLine_level2_heading (st : ParseState) (n : Nat) (line t : String)
    (hblank : (strTrim line == "") = false)
    (htitle : titleCapture line = none)
    (hattr : attrCapture line = none)
    (hhead : headingCapture line = some (2, t)) :
    finalL2Titles (parseLine st n line) = finalL2Titles st ++ [t] := by
  unfold parseLine
  rw [hblank]
  simp only [Bool.false_eq_true, if_false, htitle, hattr, ite_self, hhead]
  simp [finalL2Titles, finalSections, optSection, List.filter_append]

/-- Helper: the emitted level-2 titles of a run that starts at a "== A"
line, continues with non-level-2 lines, hits a "== B" line and ends with
non-level-2 lines, gain exactly "A" and "B". -/
theorem parseLines_two_headings (mid post : List String)
    (hmid : ∀ l ∈ mid, isLevel2Heading l = false)
    (hpost : ∀ l ∈ post, isLevel2Heading l = false) :
    ∀ (st : ParseState) (n : Nat),
      finalL2Titles (parseLines st n ("== A" :: (mid ++ ("== B" :: post))))
        = finalL2Titles st ++ ["A", "B"] := by
  intro st n
  show finalL2Titles (parseLines (parseLine st n "== A") (n + 1) (mid ++ ("== B" :: post)))
    = finalL2Titles st ++ ["A", "B"]
  rw [parseLines_append mid ("== B" :: post) (parseLine st n "== A") (n + 1)]
  show finalL2Titles (parseLines (parseLine (parseLines (parseLine st n "== A") (n + 1) mid)
    (n + 1 + mid.length) "== B") (n + 1 + mid.length + 1) post) = finalL2Titles st ++ ["A", "B"]
  rw [parseLines_finalL2 post _ _ hpost]
  rw [parseLine_level2_heading _ _ "== B" "B" (by decide) rfl rfl rfl]
  rw [parseLines_finalL2 mid _ _ hmid]
  rw [parseLine_level2_heading _ _ "== A" "A" (by decide) rfl rfl rfl]
  simp

/-- C8: parsing a text consisting of the two level-2 heading lines "== A"
and "== B" in that order, surrounded and separated by arbitrary lines none
of which is a level-2 heading, and querying `level_2_sections` on the parsed
document yields exactly the two sections titled "A" and "B", in that
order. -/
theorem C8_round_trip (pre mid post : List String)
    (h : ∀ l ∈ pre ++ mid ++ post, isLevel2Heading l = false) :
    ∃ doc, parse_content (pre ++ ["== A"] ++ mid ++ ["== B"] ++ post) "f.adoc" = .ok doc ∧
      (level_2_sections doc).map (fun s => s.title) = ["A", "B"] := by
  have hpre : ∀ l ∈ pre, isLevel2Heading l = false := fun l hl => h l (by simp [hl])
  have hmid : ∀ l ∈ mid, isLevel2Heading l = false := fun l hl => h l (by simp [hl])
  have hpost : ∀ l ∈ post, isLevel2Heading l = false := fun l hl => h l (by simp [hl])
  refine ⟨_, rfl, ?_⟩
  show ((finalSections (parseLines initState 1
      (pre ++ ["== A"] ++ mid ++ ["== B"] ++ post))).filter
        (fun s => s.level == 2)).map (fun s => s.title) = ["A", "B"]
  have hsplit : pre ++ ["== A"] ++ mid ++ ["== B"] ++ post
      = pre ++ ("== A" :: (mid ++ ("== B" :: post))) := by simp
  have : finalL2Titles (parseLines initState 1
      (pre ++ ["== A"] ++ mid ++ ["== B"] ++ post)) = ["A", "B"] := by
    rw [hsplit, parseLines_append pre _ initState 1,
      parseLines_two_headings mid post hmid hpost _ _,
      parseLines_finalL2 pre _ _ hpre]
    rfl
  simpa [finalL2Titles] using this

/-- C8 witness: the round-trip theorem applied to a concrete text with a
title line before, a body line between, and a trailing line after the two
headings. -/
theorem C8_round_trip_witness :
    ∃ doc, parse_content (["= T"] ++ ["== A"] ++ ["body text"] ++ ["== B"] ++ ["tail"])
        "f.adoc" = .ok doc ∧
      (level_2_sections doc).map (fun s => s.title) = ["A", "B"] :=
  C8_round_trip ["= T"] ["body text"] ["tail"] (by decide)

/-- Helper: `dropWhile` does not lengthen a list. -/
theorem length_dropWhileWS_le (l : List Char) :
    (l.dropWhile Char.isWhitespace).length ≤ l.length :=
  (List.dropWhile_sublist Char.isWhitespace).length_le

/-- Helper: the trimmed list is no longer than the list after dropping
leading whitespace. -/
theorem trimChars_length_le (cs : List Char) :
    (trimChars cs).length ≤ (cs.dropWhile Char.isWhitespace).length := by
  unfold trimChars
  calc ((((cs.dropWhile Char.isWhitespace).reverse).dropWhile Char.isWhitespace).reverse).length
      = (((cs.dropWhile Char.isWhitespace).reverse).dropWhile Char.isWhitespace).length := by
        simp
    _ ≤ ((cs.dropWhile Char.isWhitespace).reverse).length := length_dropWhileWS_le _
    _ = (cs.dropWhile Char.isWhitespace).length := by simp

/-- Helper: a trim-stable character list is unchanged by dropping leading
whitespace. -/
theorem dropWhile_eq_self_of_trim_eq (cs : List Char) (h : trimChars cs = cs) :
    cs.dropWhile Char.isWhitespace = cs := by
  have hlen : (cs.dropWhile Char.isWhitespace).length = cs.length := by
    have h1 := trimChars_length_le cs
    rw [h] at h1
    exact le_antisymm (length_dropWhileWS_le _) h1
  have hsplit := List.takeWhile_append_dropWhile (p := Char.isWhitespace) (l := cs)
  have hlen2 := congrArg List.length hsplit
  rw [List.length_append, hlen] at hlen2
  have htake : (cs.takeWhile Char.isWhitespace) = [] := by
    have : (cs.takeWhile Char.isWhitespace).length = 0 := by omega
    exact List.length_eq_zero.mp this
  rw [htake, List.nil_append] at hsplit
  exact hsplit

/-- Helper: a trim-stable character list is, reversed, unchanged by dropping
leading whitespace. -/
theorem reverse_dropWhile_eq_self_of_trim_eq (cs : List Char) (h : trimChars cs = cs) :
    cs.reverse.dropWhile Char.isWhitespace = cs.reverse := by
  have h1 := dropWhile_eq_self_of_trim_eq cs h
  have h2 : trimChars cs = ((cs.reverse).dropWhile Char.isWhitespace).reverse := by
    unfold trimChars
    rw [h1]
  rw [h] at h2
  have h3 := congrArg List.reverse h2
  simpa using h3.symm

/-- Helper: the head of a list unchanged by `dropWhile isWhitespace` is not
whitespace (when the list is a cons). -/
theorem head_not_ws (c : Char) (t : List Char)
    (h : List.dropWhile Char.isWhitespace (c :: t) = c :: t) :
    Char.isWhitespace c = false := by
  cases hcv : Char.isWhitespace c with
  | false => rfl
  | true =>
    rw [List.dropWhile_cons, hcv, if_pos rfl] at h
    have hle := length_dropWhileWS_le t
    have := congrArg List.length h
    simp at this
    omega

/-- Helper: prepending a whitespace-free-headed nonempty list blocks
`dropWhile`. -/
theorem dropWhile_append_ne (xs ys : List Char)
    (h : xs.dropWhile Char.isWhitespace = xs) (hx : xs ≠ []) :
    (xs ++ ys).dropWhile Char.isWhitespace = xs ++ ys := by
  cases xs with
  | nil => exact absurd rfl hx
  | cons c t =>
    have hc := head_not_ws c t h
    simp [List.dropWhile_cons, hc]

/-- Helper: the newline join of two trim-stable nonempty lines is
trim-stable. -/
theorem trimChars_append_newline (a b : List Char)
    (ha : trimChars a = a) (hna : a ≠ []) (hb : trimChars b = b) (hnb : b ≠ []) :
    trimChars (a ++ '\n' :: b) = a ++ '\n' :: b := by
  have h1 : (a ++ '\n' :: b).dropWhile Char.isWhitespace = a ++ '\n' :: b :=
    dropWhile_append_ne a ('\n' :: b) (dropWhile_eq_self_of_trim_eq a ha) hna
  have hrev : (a ++ '\n' :: b).reverse = b.reverse ++ ('\n' :: a.reverse) := by
    simp
  have h2 : (b.reverse ++ ('\n' :: a.reverse)).dropWhile Char.isWhitespace
      = b.reverse ++ ('\n' :: a.reverse) :=
    dropWhile_append_ne b.reverse ('\n' :: a.reverse)
      (reverse_dropWhile_eq_self_of_trim_eq b hb) (by simpa using hnb)
  unfold trimChars
  rw [h1, hrev, h2]
  simp

/-- Helper: trim-stability of the newline join at the String level. -/
theorem strTrim_join (l1 l2 : String) (h1 : strTrim l1 = l1) (hn1 : l1 ≠ "")
    (h2 : strTrim l2 = l2) (hn2 : l2 ≠ "") :
    strTrim (l1 ++ "\n" ++ l2) = l1 ++ "\n" ++ l2 := by
  have d1 : trimChars l1.data = l1.data := congrArg String.data h1
  have d2 : trimChars l2.data = l2.data := congrArg String.data h2
  have dn1 : l1.data ≠ [] := fun hc => hn1 (String.ext hc)
  have dn2 : l2.data ≠ [] := fun hc => hn2 (String.ext hc)
  have hdata : (l1 ++ "\n" ++ l2).data = l1.data ++ '\n' :: l2.data := by
    simp [String.data_append]
  apply String.ext
  show trimChars (l1 ++ "\n" ++ l2).data = (l1 ++ "\n" ++ l2).data
  rw [hdata]
  exact trimChars_append_newline l1.data l2.data d1 dn1 d2 dn2

/-- Helper: lines that do not trim to the abstract marker are skipped while
outside the abstract block. -/
theorem abstractLoop_skip (pre : List String)
    (h : ∀ l ∈ pre, strTrim l ≠ "[abstract]") (rest : List String) :
    abstractLoop false [] (pre ++ rest) = abstractLoop false [] rest := by
  induction pre with
  | nil => rfl
  | cons l t ih =>
    have hl : (strTrim l == "[abstract]") = false :=
      beq_eq_false_iff_ne.mpr (h l (List.mem_cons_self l t))
    show abstractLoop false [] ((l :: t) ++ rest) = _
    simp only [List.cons_append, abstractLoop, hl]
    simpa using ih (fun x hx => h x (List.mem_cons_of_mem l hx))

/-- Helper: inside the abstract block, a plain non-blank line is collected. -/
theorem abstractLoop_collect (l : String) (acc rest : List String)
    (hmark : (strTrim l == "[abstract]") = false)
    (hterm : (startsWithChar l '=' || (startsWithChar l '[' && endsWithChar l ']')) = false)
    (hne : (strTrim l == "") = false) :
    abstractLoop true acc (l :: rest) = abstractLoop true (acc ++ [l]) rest := by
  simp [abstractLoop, hmark, hterm, hne]

/-- Helper: inside the abstract block, a blank line after at least one
collected line stops collection. -/
theorem abstractLoop_blank_stop (acc rest : List String) (hacc : acc.isEmpty = false) :
    abstractLoop true acc ("" :: rest) = acc := by
  have e1 : (strTrim "" == "[abstract]") = false := by decide
  have e2 : (startsWithChar "" '=' || (startsWithChar "" '[' && endsWithChar "" ']'))
      = false := by decide
  have e3 : (strTrim "" == "") = true := by decide
  simp [abstractLoop, e1, e2, e3, hacc]

/-- C7: for a document whose content contains the `[abstract]` marker line
followed by two plain non-blank lines (trim-stable, not heading lines, not
bracket-delimited lines) and then a blank line, `abstract_content` returns
the two lines joined by a newline; and for a document none of whose lines
trims to the marker, `abstract_content` returns none. -/
theorem C7_abstract_extraction :
    (∀ (pre : List String) (l1 l2 : String) (rest : List String),
      (∀ l ∈ pre, strTrim l ≠ "[abstract]") →
      strTrim l1 = l1 → l1 ≠ "" → startsWithChar l1 '=' = false →
      (startsWithChar l1 '[' && endsWithChar l1 ']') = false →
      strTrim l2 = l2 → l2 ≠ "" → startsWithChar l2 '=' = false →
      (startsWithChar l2 '[' && endsWithChar l2 ']') = false →
      abstract_content (mkDoc (pre ++ ("[abstract]" :: l1 :: l2 :: "" :: rest)))
        = some (l1 ++ "\n" ++ l2)) ∧
    (∀ (lines : List String), (∀ l ∈ lines, strTrim l ≠ "[abstract]") →
      abstract_content (mkDoc lines) = none) := by
  constructor
  · intro pre l1 l2 rest hpre h1t h1n h1e h1b h2t h2n h2e h2b
    have habs : ∀ (l : String), strTrim l = l →
        (startsWithChar l '[' && endsWithChar l ']') = false →
        (strTrim l == "[abstract]") = false := by
      intro l hlt hlb
      rw [hlt]
      refine beq_eq_false_iff_ne.mpr (fun hc => ?_)
      rw [hc] at hlb
      have : (startsWithChar "[abstract]" '[' && endsWithChar "[abstract]" ']') = true := by
        decide
      rw [this] at hlb
      exact Bool.noConfusion hlb
    have hterm1 : (startsWithChar l1 '=' || (startsWithChar l1 '[' && endsWithChar l1 ']'))
        = false := by simp [h1e, h1b]
    have hterm2 : (startsWithChar l2 '=' || (startsWithChar l2 '[' && endsWithChar l2 ']'))
        = false := by simp [h2e, h2b]
    have hne1 : (strTrim l1 == "") = false := by
      rw [h1t]; exact beq_eq_false_iff_ne.mpr h1n
    have hne2 : (strTrim l2 == "") = false := by
      rw [h2t]; exact beq_eq_false_iff_ne.mpr h2n
    have hloop : abstractLoop false [] (pre ++ ("[abstract]" :: l1 :: l2 :: "" :: rest))
        = [l1, l2] := by
      rw [abstractLoop_skip pre hpre]
      have emark : (strTrim "[abstract]" == "[abstract]") = true := by decide
      show abstractLoop false [] ("[abstract]" :: l1 :: l2 :: "" :: rest) = [l1, l2]
      rw [show abstractLoop false [] ("[abstract]" :: l1 :: l2 :: "" :: rest)
          = abstractLoop true [] (l1 :: l2 :: "" :: rest) by
        simp [abstractLoop, emark]]
      rw [abstractLoop_collect l1 [] _ (habs l1 h1t h1b) hterm1 hne1]
      show abstractLoop true [l1] (l2 :: "" :: rest) = [l1, l2]
      rw [abstractLoop_collect l2 [l1] _ (habs l2 h2t h2b) hterm2 hne2]
      exact abstractLoop_blank_stop [l1, l2] rest rfl
    show (if (abstractLoop false [] (pre ++ ("[abstract]" :: l1 :: l2 :: "" :: rest))).isEmpty
        then none
        else some (strTrim (joinNl (abstractLoop false []
          (pre ++ ("[abstract]" :: l1 :: l2 :: "" :: rest)))))) = some (l1 ++ "\n" ++ l2)
    rw [hloop]
    show some (strTrim (joinNl [l1, l2])) = some (l1 ++ "\n" ++ l2)
    show some (strTrim (l1 ++ "\n" ++ l2)) = some (l1 ++ "\n" ++ l2)
    rw [strTrim_join l1 l2 h1t h1n h2t h2n]
  · intro lines h
    have hloop : abstractLoop false [] lines = [] := by
      have := abstractLoop_skip lines h []
      rw [List.append_nil] at this
      exact this
    show (if (abstractLoop false [] lines).isEmpty then none
        else some (strTrim (joinNl (abstractLoop false [] lines)))) = none
    rw [hloop]
    rfl

/-- C7 witness: the abstract theorem applied to a concrete document with an
abstract block of two lines, and to a concrete document without the
marker. -/
theorem C7_abstract_extraction_witness :
    abstract_content (mkDoc (["= T"] ++ ("[abstract]" :: "First." :: "Second." :: "" :: ["== S"])))
      = some ("First." ++ "\n" ++ "Second.") ∧
    abstract_content (mkDoc ["hello", "world"]) = none :=
  ⟨C7_abstract_extraction.1 ["= T"] "First." "Second." ["== S"]
      (by decide) (by decide) (by decide) (by decide) (by decide)
      (by decide) (by decide) (by decide) (by decide),
   C7_abstract_extraction.2 ["hello", "world"] (by decide)⟩

end Forgepoint
